import Mathlib

/-!
Shallow embedding of the multi-source retrieval pipeline of
`src/multi_agent_system.py` (and its rendering consumer `src/app.py`).

Remote services are modelled as explicit oracles passed to each adapter:
an HTTP call is a value of `HttpResult β` (either a raised transport
exception or a status code with an already-parsed body), the generative
session is a function from message to `Except` (exception or reply), and
page fetches are total functions (the source's `_get_page_content`
catches every exception internally and returns a string).  Python's
broad `try/except` blocks become case analysis on those oracle values;
`dict.get(key, default)` becomes `Option.getD`; Python string truthiness
(`if s`) becomes `s ≠ ""`.
-/

set_option linter.unusedVariables false

/-- Python truthiness of an optional string (`os.getenv` result):
`None` and `""` are falsy. -/
def truthy (s : Option String) : Bool :=
  match s with
  | none => false
  | some v => v ≠ ""

/-- `pat in s` for Python strings: substring containment. -/
def containsSub (s pat : String) : Bool :=
  s.toList.tails.any (fun t => pat.toList.isPrefixOf t)

/-- Python `s.startswith(pre)`.  (Structurally recursive counterpart of
`String.startsWith`, which is defined by well-founded recursion on byte
positions and therefore does not reduce definitionally.) -/
def pyStartswith (s pre : String) : Bool :=
  pre.toList.isPrefixOf s.toList

/-- Python `s.strip()`: whitespace removed from both ends. -/
def pyStrip (s : String) : String :=
  String.mk (((s.toList.dropWhile Char.isWhitespace).reverse.dropWhile
    Char.isWhitespace).reverse)

/-- Fuel-driven scanner behind `pySplit`: at each position, either the
separator is a prefix (close the current piece and continue past it) or
one character is shifted onto the current piece.  The fuel starts at
the string's length and each step consumes at least one character, so
the fuel never runs out; it only makes the recursion structural. -/
def pySplitAux (sep : List Char) : Nat → List Char → List Char → List (List Char)
  | _, [], acc => [acc.reverse]
  | 0, l, acc => [acc.reverse ++ l]
  | fuel + 1, c :: rest, acc =>
    if sep.isPrefixOf (c :: rest) then
      acc.reverse :: pySplitAux sep fuel ((c :: rest).drop sep.length) []
    else pySplitAux sep fuel rest (c :: acc)

/-- Python `s.split(sep)` for a non-empty separator. -/
def pySplit (s sep : String) : List String :=
  if sep.toList = [] then [s]
  else (pySplitAux sep.toList s.toList.length s.toList []).map String.mk

/-- Python `s.split('/')[-1]`: the last slash-separated component. -/
def lastSegment (s : String) : String :=
  (pySplit s "/").getLastD ""

/-- `re.search(r'(NCT\d{8})', s)`: the first occurrence of `NCT`
followed by eight digits, scanning left to right. -/
def findNct : List Char → Option String
  | [] => none
  | c :: rest =>
    if (c :: rest).take 3 = ['N', 'C', 'T'] ∧
        ((c :: rest).drop 3).take 8 = (((c :: rest).drop 3).take 8).filter Char.isDigit ∧
        (((c :: rest).drop 3).take 8).length = 8 then
      some (String.mk ((c :: rest).take 11))
    else findNct rest

/-- The `SearchResult` dataclass (lines 15-35).  The four list-valued
fields default to Python `None`, embedded as `Option` with default
`none`; every other field defaults to `""` / `0`. -/
structure SearchResult where
  title : String
  link : String := ""
  snippet : String := ""
  body : String := ""
  authors : Option (List String) := none
  published : String := ""
  abstract : String := ""
  pdf_url : String := ""
  arxiv_url : String := ""
  nct_id : String := ""
  status : String := ""
  study_type : String := ""
  conditions : Option (List String) := none
  interventions : Option (List String) := none
  phase : String := ""
  enrollment : Nat := 0
  locations : Option (List String) := none
deriving DecidableEq, Repr

/-- Outcome of one `requests.get` call: either a raised transport
exception (connection error / timeout), or a response with a status
code and a body of type `β`. -/
inductive HttpResult (β : Type) where
  | failure
  | response (status : Nat) (body : β)

/-- One element of the web-search response's `items` list; the three
keys are read with `item["..."]`, which raises `KeyError` when absent,
hence `Option` fields. -/
structure GoogleItem where
  title : Option String := none
  link : Option String := none
  snippet : Option String := none
deriving DecidableEq

/-- Body of the web-search response: `response.json()` raises on
malformed JSON; otherwise `.get("items", [])` reads an optional list. -/
inductive GoogleBody where
  | malformed
  | parsed (items : Option (List GoogleItem))

/-- The `for item in results` loop of `google_search` (lines 70-79).
Returns `none` when some item lacks a required key (the `KeyError`
escapes to the outer handler, discarding results accumulated so far)
and counts the page-content fetches performed before that point.
`pageContent` is the `_get_page_content` collaborator (url, max_chars);
it catches internally and never raises. -/
def googleLoop (pageContent : String → Nat → String) (max_chars : Nat) :
    List GoogleItem → Option (List SearchResult) × Nat
  | [] => (some [], 0)
  | item :: rest =>
    match item.link with
    | none => (none, 0)
    | some link =>
      let body := pageContent link max_chars
      match item.title, item.snippet with
      | some title, some snippet =>
        let tail := googleLoop pageContent max_chars rest
        (tail.1.map (fun results =>
          { title := title, link := link, snippet := snippet, body := body } :: results),
         tail.2 + 1)
      | _, _ => (none, 1)

/-- `SearchTool.google_search` (lines 43-85).  The second component
counts outbound `requests.get` calls (the search-API call plus one page
fetch per item), so that the "no network call" part of the
missing-credential contract is statable.  `num_results` is only sent to
the remote in `params` and never bounds the loop. -/
def google_search (api_key search_engine_id : Option String) (query : String)
    (num_results : Nat := 2) (max_chars : Nat := 500)
    (transport : HttpResult GoogleBody)
    (pageContent : String → Nat → String) : List SearchResult × Nat :=
  if ¬ truthy api_key ∨ ¬ truthy search_engine_id then ([], 0)
  else
    match transport with
    | .failure => ([], 1)
    | .response status body =>
      if status ≠ 200 then ([], 1)
      else
        match body with
        | .malformed => ([], 1)
        | .parsed items =>
          let looped := googleLoop pageContent max_chars (items.getD [])
          (looped.1.getD [], looped.2 + 1)

/-- One entry yielded by the preprint client (`client.results`); the
`published` field is the already-formatted date string. -/
structure ArxivPaper where
  entry_id : String
  title : String
  authors : List String
  published : String
  summary : String
  pdf_url : String
deriving DecidableEq

/-- Record construction inside `arxiv_search`'s loop (lines 100-111). -/
def arxivRecord (paper : ArxivPaper) : SearchResult :=
  let paper_id := lastSegment paper.entry_id
  { title := paper.title
    authors := some paper.authors
    published := paper.published
    abstract := paper.summary
    pdf_url := paper.pdf_url
    arxiv_url := "https://arxiv.org/abs/" ++ paper_id }

/-- `SearchTool.arxiv_search` (lines 87-118).  `client` is the stream
of papers the external library yields: `none` when it raises at any
point (the handler then discards partial results and returns `[]`).
The code itself never truncates; `max_results` is only handed to the
library's search object. -/
def arxiv_search (query : String) (max_results : Nat := 2)
    (client : Option (List ArxivPaper)) : List SearchResult :=
  match client with
  | none => []
  | some papers => papers.map arxivRecord

/-- One study of the registry's structured response; every field is
read with `.get(key, default)` through the module dictionaries, so a
missing key is `none` here and defaulted at the read site. -/
structure Study where
  nctId : Option String := none
  briefTitle : Option String := none
  officialTitle : Option String := none
  overallStatus : Option String := none
  studyType : Option String := none
  phases : Option (List String) := none
  conditions : Option (List String) := none
  briefSummary : Option String := none
  detailedDescription : Option String := none
deriving DecidableEq

/-- Body of the registry search response: malformed JSON raises;
otherwise `.get("studies", [])`. -/
inductive CtBody where
  | malformed
  | parsed (studies : Option (List Study))

/-- One intervention entry of the single-study response. -/
structure Intervention where
  name : Option String := none
deriving DecidableEq

/-- The single-study response body used by the enrichment fetch. -/
structure DetailStudy where
  briefTitle : Option String := none
  briefSummary : Option String := none
  detailedDescription : Option String := none
  conditions : Option (List String) := none
  interventions : Option (List Intervention) := none
deriving DecidableEq

/-- Body of the single-study endpoint's response. -/
inductive DetailBody where
  | malformed
  | parsed (study : DetailStudy)

/-- `SearchTool._get_clinical_trial_details_api` (lines 219-280). -/
def get_clinical_trial_details_api (nct_id : String)
    (transport : HttpResult DetailBody) : Option SearchResult :=
  if nct_id = "" ∨ ¬ pyStartswith nct_id "NCT" then none
  else
    match transport with
    | .failure => none
    | .response status body =>
      if status ≠ 200 then none
      else
        match body with
        | .malformed => none
        | .parsed study =>
          let title := study.briefTitle.getD ""
          let summary := study.briefSummary.getD ""
          let detailed_desc := study.detailedDescription.getD ""
          let conditions := study.conditions.getD []
          let interventions_list := (study.interventions.getD []).filterMap
            (fun intervention =>
              let intervention_name := intervention.name.getD ""
              if intervention_name ≠ "" then some intervention_name else none)
          some { title := title
                 link := "https://clinicaltrials.gov/ct2/show/" ++ nct_id
                 nct_id := nct_id
                 abstract := if summary ≠ "" then summary else detailed_desc
                 conditions := some conditions
                 interventions := some interventions_list }

/-- The record built for one study by `clinicaltrials_search_beta_api`
before any enrichment (lines 154-200); `nct_id` is the already-read,
non-empty identifier. -/
def buildRecord (study : Study) (nct_id : String) : SearchResult :=
  let title := study.briefTitle.getD ""
  let official_title := study.officialTitle.getD ""
  let study_type := study.studyType.getD ""
  let phase_list := study.phases.getD []
  let phase := if phase_list ≠ [] then String.intercalate ", " phase_list
               else "Not Specified"
  let status := study.overallStatus.getD ""
  let conditions := study.conditions.getD []
  let summary := study.briefSummary.getD ""
  let detailed_desc := study.detailedDescription.getD ""
  { title := if title ≠ "" then title else official_title
    link := "https://clinicaltrials.gov/ct2/show/" ++ nct_id
    snippet := if summary.length > 200 then summary.take 200 ++ "..." else summary
    abstract := if summary ≠ "" then summary else detailed_desc
    nct_id := nct_id
    status := status
    study_type := study_type
    phase := phase
    conditions := some conditions }

/-- The enrichment merge (lines 207-209): the detail record's
`abstract`, `conditions` and `interventions` are assigned onto the
already-built record. -/
def mergeDetail (result detailed_study : SearchResult) : SearchResult :=
  { result with
    abstract := detailed_study.abstract
    conditions := detailed_study.conditions
    interventions := detailed_study.interventions }

/-- One iteration of the `for study in studies` loop (lines 153-211):
`none` when the study is skipped for lack of an identifier.
`detailTransport` gives the single-study endpoint's response per id. -/
def processStudy (detailTransport : String → HttpResult DetailBody)
    (study : Study) : Option SearchResult :=
  let nct_id := study.nctId.getD ""
  if nct_id = "" then none
  else
    let result := buildRecord study nct_id
    let summary := study.briefSummary.getD ""
    let detailed_desc := study.detailedDescription.getD ""
    if summary = "" ∧ detailed_desc = "" then
      match get_clinical_trial_details_api nct_id (detailTransport nct_id) with
      | some detailed_study => some (mergeDetail result detailed_study)
      | none => some result
    else some result

/-- `SearchTool.clinicaltrials_search_beta_api` (lines 120-217).
`max_results` only becomes the remote `pageSize` parameter; the loop
itself never truncates. -/
def clinicaltrials_search_beta_api (query : String) (max_results : Nat := 2)
    (transport : HttpResult CtBody)
    (detailTransport : String → HttpResult DetailBody) : List SearchResult :=
  match transport with
  | .failure => []
  | .response status body =>
    if status ≠ 200 then []
    else
      match body with
      | .malformed => []
      | .parsed studies =>
        let studies := studies.getD []
        if studies = [] then []
        else studies.filterMap (processStudy detailTransport)

/-- A scraped element: its `get_text()` and the texts of its `li`
descendants (used only for the conditions section). -/
structure Elem where
  text : String := ""
  items : List String := []
deriving DecidableEq

/-- Context around a label node found by `soup.find(string=...)` or
`soup.find("th", string=...)`: whether it has a parent, whether that
parent is a `th`, and the texts of `find_next("td")`,
`find_next("div", class_="ct-data-elem__value")` and
`find_next_sibling("div")`, each `none` when absent. -/
structure LabelHit where
  hasParent : Bool := true
  parentIsTh : Bool := false
  nextTd : Option String := none
  valueDiv : Option String := none
  siblingDiv : Option String := none
deriving DecidableEq

/-- A study detail page as the scraper reads it: `css` is
`soup.select_one`, `paragraphs` the texts of all `p` elements,
`sections` all `section` elements, `findString`/`findTh` the label
lookups, and `nctString` the first text node matching the identifier
regex (for the last-resort identifier search). -/
structure DetailPage where
  css : String → Option Elem := fun _ => none
  paragraphs : List String := []
  sections : List Elem := []
  findString : String → Option LabelHit := fun _ => none
  findTh : String → Option LabelHit := fun _ => none
  nctString : Option String := none

/-- A candidate selector of the status list: either a plain CSS
selector handed to `select_one`, or the source's custom
`p:contains(<text>)` form, which the loop detects by the `:contains`
substring and resolves by scanning all `p` elements for `<text>`
(lines 409-421).  The embedded constructor stores the text the split
on `:contains(` extracts. -/
inductive Selector where
  | cssSel (s : String)
  | containsP (text : String)

/-- Title candidate selectors (line 400). -/
def title_selectors : List String := ["h1.tr-h1", "h1.ct-title", ".headline-title"]

/-- Status candidate selectors (lines 409-411); the third is the
source's `p:contains(<Recruitment Status:>)`. -/
def status_selectors : List Selector :=
  [.cssSel ".ct-recruitment-status div.ct-recruitment-status__label",
   .cssSel ".statusLabel",
   .containsP "Recruitment Status:"]

/-- Summary candidate selectors (lines 437-439). -/
def summary_selectors : List String :=
  ["#brief-summary div.tr-indent2", ".ct-body__section div.tr-indent1",
   "section#brief-summary"]

/-- The shared loop shape of the title and summary extractions
(lines 401-405, 440-444): take the first selector whose element
exists, return its stripped text — whether or not that text is empty —
and fall back to the default only when no selector matches. -/
def extractFirstCss (css : String → Option Elem) :
    List String → String → String
  | [], dflt => dflt
  | selector :: rest, dflt =>
    match css selector with
    | some elem => pyStrip elem.text
    | none => extractFirstCss css rest dflt

/-- Post-processing of a matched status element's text
(lines 428-432): strip, and when it contains `Status:` keep what
follows the first occurrence, stripped. -/
def statusFromText (t : String) : String :=
  let status_text := pyStrip t
  if containsSub status_text "Status:" then
    pyStrip ((pySplit status_text "Status:").getD 1 "")
  else status_text

/-- Python `paragraphs` scan of the `p:contains` branch: the first `p`
whose text contains `text` (lines 417-421). -/
def findP (paragraphs : List String) (text : String) : Option String :=
  paragraphs.find? (fun p => containsSub p text)

/-- The status extraction loop (lines 408-433): first selector whose
element exists wins, its text post-processed by `statusFromText`; the
loop breaks there even when the resulting text is empty. -/
def statusLoop (page : DetailPage) : List Selector → String
  | [] => "Unknown"
  | selector :: rest =>
    let status_elem : Option String :=
      match selector with
      | .containsP text => findP page.paragraphs text
      | .cssSel s => (page.css s).map Elem.text
    match status_elem with
    | some t => statusFromText t
    | none => statusLoop page rest

/-- The value element chased from a label hit (lines 455-464): no
parent means no value; a `th` parent reads the next `td`; otherwise the
next value `div`, falling back to the next sibling `div`. -/
def labelValue (hit : LabelHit) : Option String :=
  if ¬ hit.hasParent then none
  else if hit.parentIsTh then hit.nextTd
  else
    match hit.valueDiv with
    | some v => some v
    | none => hit.siblingDiv

/-- The study-type / phase loop (lines 446-492): the two selector
functions produce label hits; the first hit that yields a value element
gives the stripped value text, and a hit without a value element does
not break the loop. -/
def extractLabeled : List (Option LabelHit) → String
  | [] => ""
  | hit? :: rest =>
    match hit? with
    | some hit =>
      match labelValue hit with
      | some v => pyStrip v
      | none => extractLabeled rest
    | none => extractLabeled rest

/-- A conditions candidate selector (line 496): CSS, or the source's
`section:contains(<Condition>)` resolved by scanning `section`
elements. -/
inductive CondSelector where
  | cssSel (s : String)
  | containsSection (text : String)

/-- Conditions candidate selectors (line 496). -/
def conditions_selectors : List CondSelector :=
  [.cssSel "#conditions", .cssSel "section#conditions",
   .containsSection "Condition"]

/-- First `section` whose text contains `text` (lines 500-506). -/
def findSection (sections : List Elem) (text : String) : Option Elem :=
  sections.find? (fun sec => containsSub sec.text text)

/-- Conditions read from a matched section (lines 512-524): the `li`
texts stripped when any exist, else the section text stripped, with
everything up to the first `:` dropped, split on commas and each part
stripped. -/
def conditionsFromSection (sec : Elem) : List String :=
  if sec.items ≠ [] then sec.items.map pyStrip
  else
    let conditions_text := pyStrip sec.text
    let conditions_text :=
      if containsSub conditions_text ":" then
        pyStrip (String.intercalate ":" ((pySplit conditions_text ":").drop 1))
      else conditions_text
    (pySplit conditions_text ",").map pyStrip

/-- The conditions extraction loop (lines 494-524): first selector
whose section exists wins. -/
def condLoop (page : DetailPage) : List CondSelector → List String
  | [] => []
  | selector :: rest =>
    let conditions_section : Option Elem :=
      match selector with
      | .containsSection text => findSection page.sections text
      | .cssSel s => page.css s
    match conditions_section with
    | some sec => conditionsFromSection sec
    | none => condLoop page rest

/-- Identifier extraction from the detail-page URL (lines 377-396):
a `/ct2/show/` URL's last segment, else the regex over the URL, else
the regex over the page's first identifier-bearing text node, else
`"Unknown"`. -/
def scrapeNct (url : String) (page : DetailPage) : String :=
  if containsSub url "/ct2/show/" then lastSegment url
  else
    match findNct url.toList with
    | some m => m
    | none =>
      match page.nctString with
      | some s => (findNct s.toList).getD "Unknown"
      | none => "Unknown"

/-- `SearchTool._get_clinical_trial_details_scrape` (lines 359-540). -/
def get_clinical_trial_details_scrape (url : String)
    (transport : HttpResult DetailPage) : Option SearchResult :=
  match transport with
  | .failure => none
  | .response st page =>
    if st ≠ 200 then none
    else
      let nct_id := scrapeNct url page
      let title := extractFirstCss page.css title_selectors "Unknown Title"
      let status := statusLoop page status_selectors
      let summary := extractFirstCss page.css summary_selectors ""
      let study_type := extractLabeled [page.findString "Study Type:", page.findTh "Study Type"]
      let phase := extractLabeled [page.findString "Phase:", page.findTh "Phase"]
      let conditions := condLoop page conditions_selectors
      some { title := title
             link := url
             snippet := if summary ≠ "" ∧ summary.length > 200 then
                          summary.take 200 ++ "..."
                        else summary
             abstract := summary
             nct_id := nct_id
             status := status
             study_type := study_type
             phase := phase
             conditions := some conditions }

/-- The search-results page of the scrape tier: the `href` attribute of
each link the fixed CSS selector yields, in page order (`link.get('href', '')`
defaults an absent attribute, kept as `Option` and defaulted at the
read site). -/
structure ScrapeSearchPage where
  links : List (Option String) := []

/-- Identifier extraction from one result link's href (lines 325-342). -/
def extract_nct_from_href (href : String) : Option String :=
  if containsSub href "/study/" then some (lastSegment href)
  else if containsSub href "/ct2/show/" then some (lastSegment href)
  else findNct href.toList

/-- `SearchTool.clinicaltrials_search_scrape` (lines 282-357).  This is
the one adapter that truncates locally: `study_links[:max_results]`.
`detailTransport` gives each study detail page's response by URL. -/
def clinicaltrials_search_scrape (query : String) (max_results : Nat := 2)
    (transport : HttpResult ScrapeSearchPage)
    (detailTransport : String → HttpResult DetailPage) : List SearchResult :=
  match transport with
  | .failure => []
  | .response st page =>
    if st ≠ 200 then []
    else
      let study_links := page.links.take max_results
      if study_links = [] then []
      else
        study_links.filterMap (fun link =>
          let href := link.getD ""
          if href = "" then none
          else
            match extract_nct_from_href href with
            | none => none
            | some nct_id =>
              let study_url := "https://clinicaltrials.gov/ct2/show/" ++ nct_id
              get_clinical_trial_details_scrape study_url (detailTransport study_url))

/-- Step 3 of `MultiAgentSystem.run_literature_review` (lines 634-640):
Tier 1 first, Tier 2 only when Tier 1's list is empty.  The second
component counts how many times `clinicaltrials_search_scrape` is
invoked. -/
def run_registry_stage (topic : String)
    (apiTransport : HttpResult CtBody)
    (detailTransport : String → HttpResult DetailBody)
    (scrapeTransport : HttpResult ScrapeSearchPage)
    (scrapeDetail : String → HttpResult DetailPage) :
    List SearchResult × Nat :=
  let clinical_trials_results :=
    clinicaltrials_search_beta_api topic 2 apiTransport detailTransport
  if clinical_trials_results = [] then
    (clinicaltrials_search_scrape topic 2 scrapeTransport scrapeDetail, 1)
  else (clinical_trials_results, 0)

/-- The per-record block of the registry context (lines 644-653): note
the unconditional `...` after `{result.abstract[:300]}`. -/
def trialLine (result : SearchResult) : String :=
  let conditions_list := result.conditions.getD []
  "\nTitle: " ++ result.title ++
  "\nNCT ID: " ++ result.nct_id ++
  "\nStatus: " ++ result.status ++
  "\nStudy Type: " ++ result.study_type ++
  "\nPhase: " ++ result.phase ++
  "\nConditions: " ++ (if conditions_list ≠ [] then
                         String.intercalate ", " conditions_list
                       else "Not specified") ++
  "\nSummary: " ++ result.abstract.take 300 ++ "..." ++
  "\nURL: " ++ result.link ++ "\n"

/-- The registry context block (lines 642-655). -/
def clinical_trials_context (topic : String)
    (clinical_trials_results : List SearchResult) : String :=
  let ctx := "\nBased on ClinicalTrials.gov search for \x27" ++ topic ++
             "\x27, here are the clinical trials:\n"
  if clinical_trials_results ≠ [] then
    ctx ++ String.join (clinical_trials_results.map trialLine)
  else ctx ++ "\nNo clinical trials found.\n"

/-- The generative session held by an agent: `send_message` returns the
reply text, or the exception message when the service raises (including
a raise while reading `response.text`). -/
structure ChatSession where
  send_message : String → Except String String

/-- Outcome of `genai.configure` + `GenerativeModel` + `start_chat`
inside `Agent.__init__`'s `try` (lines 572-579). -/
inductive InitResult where
  | ok (chat : ChatSession)
  | exn

/-- The `Agent` state after construction. -/
structure Agent where
  name : String
  chat : Option ChatSession

/-- `Agent.__init__` (lines 567-579): a falsy credential raises
`ValueError` out of the constructor (`Except.error`); a failure of the
generative-service setup is caught and leaves `chat = None`. -/
def Agent.init (name : String) (api_key : Option String)
    (genai : InitResult) : Except String Agent :=
  if ¬ truthy api_key then
    .error "GOOGLE_API_KEY environment variable not set"
  else
    match genai with
    | .ok chat => .ok { name := name, chat := some chat }
    | .exn => .ok { name := name, chat := none }

/-- `Agent.process` (lines 581-592). -/
def Agent.process (agent : Agent) (message : String) : String :=
  match agent.chat with
  | none => "Error: Agent not properly initialized"
  | some chat =>
    match chat.send_message message with
    | .ok text => text
    | .error e => "Error processing message: " ++ e

/-- Number of items the web-search remote response carries. -/
def googleItemCount : HttpResult GoogleBody → Nat
  | .response _ (.parsed (some items)) => items.length
  | _ => 0

/-- Number of studies the registry structured response carries. -/
def ctStudyCount : HttpResult CtBody → Nat
  | .response _ (.parsed (some studies)) => studies.length
  | _ => 0

/-- Number of papers the preprint client yields. -/
def arxivPaperCount : Option (List ArxivPaper) → Nat
  | none => 0
  | some papers => papers.length

theorem googleLoop_length_le (pageContent : String → Nat → String)
    (max_chars : Nat) (items : List GoogleItem) :
    (((googleLoop pageContent max_chars items).1.getD []).length ≤ items.length) := by
  induction items with
  | nil => simp [googleLoop]
  | cons item rest ih =>
    obtain ⟨t?, l?, s?⟩ := item
    cases l? with
    | none => simp [googleLoop]
    | some link =>
      cases t? with
      | none => simp [googleLoop]
      | some t =>
        cases s? with
        | none => simp [googleLoop]
        | some s =>
          simp only [googleLoop]
          cases h : (googleLoop pageContent max_chars rest).1 with
          | none => simp
          | some tail =>
            rw [h] at ih
            simpa using ih

/-- Claim C1: for every adapter, `fetch(q, n)` returns at most `n`
records regardless of how many items the remote response contains.
FALSE: `google_search` appends a record for every item of the response
(`num_results` is only sent to the remote); with credentials present,
`n = 1` and a 200 response carrying two well-formed items, it returns
two records. -/
theorem C1_counterexample :
    ((google_search (some "k") (some "cx") "q" 1 500
        (.response 200 (.parsed (some
          [{ title := some "A", link := some "http://a", snippet := some "sa" },
           { title := some "B", link := some "http://b", snippet := some "sb" }])))
        (fun _ _ => "")).1.length = 2) ∧
    ¬ ((google_search (some "k") (some "cx") "q" 1 500
        (.response 200 (.parsed (some
          [{ title := some "A", link := some "http://a", snippet := some "sa" },
           { title := some "B", link := some "http://b", snippet := some "sb" }])))
        (fun _ _ => "")).1.length ≤ 1) :=
  ⟨rfl, by decide⟩

/-- Claim C1 amended: only the Tier-2 scrape adapter truncates its
result list to `max_results`; the other adapters hand the requested
count to the remote and build one record per item the response carries
(the Tier-1 registry adapter skipping identifier-less studies, so its
length is at most the number of studies; the preprint adapter exactly
one per paper its client yields), so their `≤ n` bound holds only when
the remote honors the requested count. -/
theorem C1_amended :
    (∀ (query : String) (max_results : Nat) (transport : HttpResult ScrapeSearchPage)
       (detailTransport : String → HttpResult DetailPage),
       (clinicaltrials_search_scrape query max_results transport detailTransport).length
         ≤ max_results) ∧
    (∀ (api_key search_engine_id : Option String) (query : String)
       (num_results max_chars : Nat) (transport : HttpResult GoogleBody)
       (pageContent : String → Nat → String),
       (google_search api_key search_engine_id query num_results max_chars
          transport pageContent).1.length ≤ googleItemCount transport) ∧
    (∀ (query : String) (max_results : Nat) (transport : HttpResult CtBody)
       (detailTransport : String → HttpResult DetailBody),
       (clinicaltrials_search_beta_api query max_results transport
          detailTransport).length ≤ ctStudyCount transport) ∧
    (∀ (query : String) (max_results : Nat) (client : Option (List ArxivPaper)),
       (arxiv_search query max_results client).length = arxivPaperCount client) := by
  refine ⟨?_, ?_, ?_, ?_⟩
  · intro query max_results transport detailTransport
    match transport with
    | .failure => simp [clinicaltrials_search_scrape]
    | .response st page =>
      simp only [clinicaltrials_search_scrape]
      split
      · simp
      · split
        · simp
        · exact le_trans (List.length_filterMap_le _ _) (List.length_take_le _ _)
  · intro api_key search_engine_id query num_results max_chars transport pageContent
    rcases transport with _ | ⟨st, body⟩
    · simp only [google_search]
      split <;> simp
    · rcases body with _ | items
      · simp only [google_search]
        split
        · simp
        · split <;> simp
      · rcases items with _ | its
        · simp only [google_search, googleItemCount]
          split
          · simp
          · split
            · simp
            · simpa using googleLoop_length_le pageContent max_chars []
        · simp only [google_search, googleItemCount]
          split
          · simp
          · split
            · simp
            · simpa using googleLoop_length_le pageContent max_chars its
  · intro query max_results transport detailTransport
    match transport with
    | .failure => simp [clinicaltrials_search_beta_api]
    | .response st body =>
      simp only [clinicaltrials_search_beta_api]
      split
      · simp
      · match body with
        | .malformed => simp [ctStudyCount]
        | .parsed none => simp [ctStudyCount]
        | .parsed (some studies) =>
          simp only [Option.getD_some, ctStudyCount]
          split
          · simp
          · exact List.length_filterMap_le _ _
  · intro query max_results client
    match client with
    | none => rfl
    | some papers => simp [arxiv_search, arxivPaperCount]

/-- Claim C2: in the orchestrator's registry stage, the Tier-2 scrape
is invoked exactly once if and only if the Tier-1 structured-API call
returned an empty list, and never when Tier 1 returned records; the
stage's results are Tier 2's in the first case and Tier 1's in the
second. -/
theorem C2_tier2_iff_tier1_empty :
    ∀ (topic : String) (apiTransport : HttpResult CtBody)
      (detailTransport : String → HttpResult DetailBody)
      (scrapeTransport : HttpResult ScrapeSearchPage)
      (scrapeDetail : String → HttpResult DetailPage),
      ((run_registry_stage topic apiTransport detailTransport scrapeTransport
          scrapeDetail).2 = 1
        ↔ clinicaltrials_search_beta_api topic 2 apiTransport detailTransport = []) ∧
      ((run_registry_stage topic apiTransport detailTransport scrapeTransport
          scrapeDetail).2 = 0
        ↔ clinicaltrials_search_beta_api topic 2 apiTransport detailTransport ≠ []) ∧
      (clinicaltrials_search_beta_api topic 2 apiTransport detailTransport = [] →
        run_registry_stage topic apiTransport detailTransport scrapeTransport scrapeDetail
          = (clinicaltrials_search_scrape topic 2 scrapeTransport scrapeDetail, 1)) ∧
      (clinicaltrials_search_beta_api topic 2 apiTransport detailTransport ≠ [] →
        run_registry_stage topic apiTransport detailTransport scrapeTransport scrapeDetail
          = (clinicaltrials_search_beta_api topic 2 apiTransport detailTransport, 0)) := by
  intro topic apiTransport detailTransport scrapeTransport scrapeDetail
  by_cases h : clinicaltrials_search_beta_api topic 2 apiTransport detailTransport = [] <;>
    simp [run_registry_stage, h]

/-- Tier-1 study whose conditions are populated while both summary
fields are absent, so the detail-enrichment fetch runs. -/
def c3Study : Study := { nctId := some "NCT00000001", conditions := some ["Diabetes"] }

/-- Detail transport answering the enrichment fetch with a 200 response
whose body carries no conditions (`.get("conditions", [])` defaults to
the empty list). -/
def c3DetailTransport : String → HttpResult DetailBody :=
  fun _ => .response 200 (.parsed {})

/-- Claim C3: the enrichment merge fills only empty fields and never
overwrites a populated field — in particular a non-empty conditions
list present before enrichment is unchanged after enrichment.
FALSE: lines 207-209 assign the detail record's `conditions` and
`interventions` unconditionally.  For `c3Study` the record before
enrichment (first conjunct, detail fetch failing so the record is
returned unenriched) has conditions `["Diabetes"]`; after a successful
enrichment whose detail body lacks conditions (second conjunct) the
same study's record has conditions `[]`. -/
theorem C3_counterexample :
    ((processStudy (fun _ => HttpResult.failure) c3Study).map SearchResult.conditions
        = some (some ["Diabetes"])) ∧
    ((processStudy c3DetailTransport c3Study).map SearchResult.conditions
        = some (some [])) ∧
    (some ["Diabetes"] : Option (List String)) ≠ some [] :=
  ⟨by decide, by decide, by decide⟩

/-- Claim C3 amended: the enrichment merge assigns the detail record's
`abstract`, `conditions` and `interventions` unconditionally — so
`conditions` (and `interventions`) are replaced even when already
populated — while every other field of the record is unchanged; since
enrichment runs only when both summary fields are empty, the record it
merges into has an empty `abstract` and unset `interventions`, so only
`conditions` can lose an already-populated value. -/
theorem C3_amended :
    ∀ (result detailed_study : SearchResult) (study : Study) (nct_id : String),
      ((mergeDetail result detailed_study).abstract = detailed_study.abstract ∧
       (mergeDetail result detailed_study).conditions = detailed_study.conditions ∧
       (mergeDetail result detailed_study).interventions = detailed_study.interventions) ∧
      ((mergeDetail result detailed_study).title = result.title ∧
       (mergeDetail result detailed_study).link = result.link ∧
       (mergeDetail result detailed_study).snippet = result.snippet ∧
       (mergeDetail result detailed_study).body = result.body ∧
       (mergeDetail result detailed_study).authors = result.authors ∧
       (mergeDetail result detailed_study).published = result.published ∧
       (mergeDetail result detailed_study).pdf_url = result.pdf_url ∧
       (mergeDetail result detailed_study).arxiv_url = result.arxiv_url ∧
       (mergeDetail result detailed_study).nct_id = result.nct_id ∧
       (mergeDetail result detailed_study).status = result.status ∧
       (mergeDetail result detailed_study).study_type = result.study_type ∧
       (mergeDetail result detailed_study).phase = result.phase ∧
       (mergeDetail result detailed_study).enrollment = result.enrollment ∧
       (mergeDetail result detailed_study).locations = result.locations) ∧
      (study.briefSummary.getD "" = "" → study.detailedDescription.getD "" = "" →
        (buildRecord study nct_id).abstract = "" ∧
        (buildRecord study nct_id).interventions = none) := by
  intro result detailed_study study nct_id
  refine ⟨⟨rfl, rfl, rfl⟩,
    ⟨rfl, rfl, rfl, rfl, rfl, rfl, rfl, rfl, rfl, rfl, rfl, rfl, rfl, rfl⟩, ?_⟩
  intro h1 h2
  constructor
  · simp [buildRecord, h1, h2]
  · rfl

/-- A study of the structured response lacking its `nctId` field. -/
def c4BadStudy : Study := {}

/-- A well-formed study of the same response. -/
def c4GoodStudy : Study := { nctId := some "NCT00000002", briefSummary := some "S" }

/-- Claim C4: adapters return normally on every transport outcome, and
on any such failure — including a field-missing response body — return
the empty list.  FALSE for the empty-list part: a 200 registry response
whose first study lacks its identifier and whose second is well-formed
yields a one-element (partial, non-empty) list: the defective study is
skipped with `continue`, not turned into an empty result. -/
theorem C4_counterexample :
    ((clinicaltrials_search_beta_api "q" 2
        (.response 200 (.parsed (some [c4BadStudy, c4GoodStudy])))
        (fun _ => HttpResult.failure)).length = 1) ∧
    (clinicaltrials_search_beta_api "q" 2
        (.response 200 (.parsed (some [c4BadStudy, c4GoodStudy])))
        (fun _ => HttpResult.failure) ≠ []) :=
  ⟨rfl, by decide⟩

theorem googleLoop_none_of_defective (pageContent : String → Nat → String)
    (max_chars : Nat) (items : List GoogleItem) (item : GoogleItem)
    (hmem : item ∈ items)
    (hdef : item.link = none ∨ item.title = none ∨ item.snippet = none) :
    (googleLoop pageContent max_chars items).1 = none := by
  induction items with
  | nil => cases hmem
  | cons hd rest ih =>
    obtain ⟨t?, l?, s?⟩ := hd
    rcases List.mem_cons.mp hmem with heq | hmem2
    · subst heq
      rcases hdef with h | h | h <;> simp at h <;> subst h
      · simp [googleLoop]
      · cases l? with
        | none => simp [googleLoop]
        | some link => simp [googleLoop]
      · cases l? with
        | none => simp [googleLoop]
        | some link =>
          cases t? with
          | none => simp [googleLoop]
          | some t => simp [googleLoop]
    · cases l? with
      | none => simp [googleLoop]
      | some link =>
        cases t? with
        | none => simp [googleLoop]
        | some t =>
          cases s? with
          | none => simp [googleLoop]
          | some s => simp [googleLoop, ih hmem2]

/-- Claim C4 amended: no adapter raises past its boundary (each is a
total function of its transport oracle); on a network/timeout failure,
a non-success status code, or an unparseable response body each adapter
returns the empty list — `google_search` also returns the empty list
when any item of a parsed body lacks a required key, discarding records
already built — while the registry adapters turn a parseable body with
missing fields into an empty-or-partial list (defective studies and
links are skipped, absent fields defaulted) rather than the empty
list. -/
theorem C4_amended :
    (∀ (api_key search_engine_id : Option String) (query : String)
       (num_results max_chars : Nat) (pageContent : String → Nat → String),
       ((google_search api_key search_engine_id query num_results max_chars
           .failure pageContent).1 = []) ∧
       (∀ (st : Nat) (body : GoogleBody), st ≠ 200 →
         (google_search api_key search_engine_id query num_results max_chars
            (.response st body) pageContent).1 = []) ∧
       ((google_search api_key search_engine_id query num_results max_chars
           (.response 200 .malformed) pageContent).1 = []) ∧
       (∀ (items : List GoogleItem) (item : GoogleItem), item ∈ items →
         item.link = none ∨ item.title = none ∨ item.snippet = none →
         (google_search api_key search_engine_id query num_results max_chars
            (.response 200 (.parsed (some items))) pageContent).1 = [])) ∧
    (∀ (query : String) (max_results : Nat),
       arxiv_search query max_results none = []) ∧
    (∀ (query : String) (max_results : Nat)
       (detailTransport : String → HttpResult DetailBody),
       (clinicaltrials_search_beta_api query max_results .failure detailTransport = []) ∧
       (∀ (st : Nat) (body : CtBody), st ≠ 200 →
         clinicaltrials_search_beta_api query max_results (.response st body)
           detailTransport = []) ∧
       (clinicaltrials_search_beta_api query max_results (.response 200 .malformed)
          detailTransport = [])) ∧
    (∀ (query : String) (max_results : Nat)
       (detailTransport : String → HttpResult DetailPage),
       (clinicaltrials_search_scrape query max_results .failure detailTransport = []) ∧
       (∀ (st : Nat) (page : ScrapeSearchPage), st ≠ 200 →
         clinicaltrials_search_scrape query max_results (.response st page)
           detailTransport = [])) := by
  refine ⟨?_, ?_, ?_, ?_⟩
  · intro api_key search_engine_id query num_results max_chars pageContent
    refine ⟨?_, ?_, ?_, ?_⟩
    · simp only [google_search]; split <;> rfl
    · intro st body hst
      rcases body with _ | items <;>
        · simp only [google_search]
          split
          · rfl
          · simp [hst]
    · simp only [google_search]
      split
      · rfl
      · simp
    · intro items item hmem hdef
      simp only [google_search]
      split
      · rfl
      · simp [googleLoop_none_of_defective pageContent max_chars items item hmem hdef]
  · intro query max_results
    rfl
  · intro query max_results detailTransport
    refine ⟨rfl, ?_, ?_⟩
    · intro st body hst
      rcases body with _ | studies <;> simp [clinicaltrials_search_beta_api, hst]
    · simp [clinicaltrials_search_beta_api]
  · intro query max_results detailTransport
    refine ⟨rfl, ?_⟩
    intro st page hst
    simp [clinicaltrials_search_scrape, hst]

/-- A detail page on which the first status candidate selector matches
an element whose text strips to empty, while the second matches an
element with text `Recruiting`. -/
def c5Page : DetailPage :=
  { css := fun sel =>
      if sel = ".ct-recruitment-status div.ct-recruitment-status__label" then
        some { text := "   " }
      else if sel = ".statusLabel" then some { text := "Recruiting" }
      else none }

/-- Claim C5: each scraped field accepts the first NON-EMPTY candidate
match.  FALSE: the loop breaks on the first candidate whose element
exists, even when its stripped text is empty.  On `c5Page` the claim
predicts status `Recruiting` (the first non-empty match, from the
second candidate); the code extracts the empty string from the first
candidate's matching element. -/
theorem C5_counterexample :
    statusLoop c5Page status_selectors = "" ∧
    statusLoop c5Page status_selectors ≠ "Recruiting" :=
  ⟨by decide, by decide⟩

/-- Claim C5 amended: each field is extracted by trying its candidate
selectors in order and accepting the stripped (for status, further
`Status:`-processed) text of the first candidate that MATCHES AN
ELEMENT, even when that text is empty; in particular, when the first
status candidate matches no element and the second matches, the status
is the second's processed text; when every candidate matches nothing
the field keeps its default (`Unknown` for title/status, empty
otherwise) and the record is still emitted rather than treated as an
error. -/
theorem C5_amended :
    (∀ (page : DetailPage) (e : Elem),
      page.css ".ct-recruitment-status div.ct-recruitment-status__label" = some e →
      statusLoop page status_selectors = statusFromText e.text) ∧
    (∀ (page : DetailPage) (e : Elem),
      page.css ".ct-recruitment-status div.ct-recruitment-status__label" = none →
      page.css ".statusLabel" = some e →
      statusLoop page status_selectors = statusFromText e.text) ∧
    (∀ page : DetailPage,
      page.css ".ct-recruitment-status div.ct-recruitment-status__label" = none →
      page.css ".statusLabel" = none →
      (∀ p ∈ page.paragraphs, containsSub p "Recruitment Status:" = false) →
      statusLoop page status_selectors = "Unknown") ∧
    (∀ (css : String → Option Elem) (dflt sel : String) (rest : List String)
       (e : Elem), css sel = some e →
      extractFirstCss css (sel :: rest) dflt = pyStrip e.text) ∧
    (∀ (css : String → Option Elem) (dflt : String) (selectors : List String),
      (∀ sel ∈ selectors, css sel = none) →
      extractFirstCss css selectors dflt = dflt) ∧
    (get_clinical_trial_details_scrape "https://clinicaltrials.gov/ct2/show/NCT11111111"
        (.response 200 {}) =
      some { title := "Unknown Title",
             link := "https://clinicaltrials.gov/ct2/show/NCT11111111",
             snippet := "", abstract := "", nct_id := "NCT11111111",
             status := "Unknown", study_type := "", phase := "",
             conditions := some [] }) := by
  refine ⟨?_, ?_, ?_, ?_, ?_, by decide⟩
  · intro page e h
    simp [statusLoop, status_selectors, h]
  · intro page e h1 h2
    simp [statusLoop, status_selectors, h1, h2]
  · intro page h1 h2 hp
    have hfind : findP page.paragraphs "Recruitment Status:" = none := by
      simp only [findP, List.find?_eq_none]
      intro p hmem
      simp [hp p hmem]
    simp [statusLoop, status_selectors, h1, h2, hfind]
  · intro css dflt sel rest e h
    simp [extractFirstCss, h]
  · intro css dflt selectors h
    induction selectors with
    | nil => rfl
    | cons sel rest ih =>
      have hh := h sel (List.mem_cons_self sel rest)
      simp only [extractFirstCss, hh]
      exact ih (fun s hs => h s (List.mem_cons_of_mem sel hs))

/-- Tier-1 study with an absent brief summary and a non-empty detailed
description. -/
def c6Study : Study := { nctId := some "NCT00000003", detailedDescription := some "D" }

/-- Claim C6: whenever the source summary's length is at most 200, the
built record's `snippet` equals its `abstract`.  FALSE: for a study
with an empty brief summary (length 0 ≤ 200) and a non-empty detailed
description, `abstract` falls back to the detailed description while
`snippet` stays the empty summary. -/
theorem C6_counterexample :
    ((processStudy (fun _ => HttpResult.failure) c6Study).map
        (fun r => (r.snippet, r.abstract)) = some ("", "D")) ∧
    ("" : String).length ≤ 200 ∧ ("" : String) ≠ "D" :=
  ⟨by decide, by decide, by decide⟩

/-- Claim C6 amended: when the brief summary exceeds 200 characters the
record's snippet is its first 200 characters plus an ellipsis (length
at most 203); when it is at most 200 characters the snippet equals the
summary, which equals the record's `abstract` whenever the summary is
non-empty or the detailed description is also empty (when the summary
is empty and the detailed description is not, `abstract` falls back to
the detailed description and differs from the empty snippet). -/
theorem C6_amended :
    ∀ (study : Study) (nct_id : String),
      (((study.briefSummary.getD "").length > 200 →
         (buildRecord study nct_id).snippet
           = (study.briefSummary.getD "").take 200 ++ "..." ∧
         (buildRecord study nct_id).snippet.length ≤ 203) ∧
       ((study.briefSummary.getD "").length ≤ 200 →
         (buildRecord study nct_id).snippet = study.briefSummary.getD "" ∧
         (study.briefSummary.getD "" ≠ "" ∨ study.detailedDescription.getD "" = "" →
           (buildRecord study nct_id).snippet = (buildRecord study nct_id).abstract))) := by
  intro study nct_id
  constructor
  · intro h
    constructor
    · simp [buildRecord, h]
    · have hs : (buildRecord study nct_id).snippet
          = (study.briefSummary.getD "").take 200 ++ "..." := by simp [buildRecord, h]
      rw [hs, String.length_append, String.take_eq, String.length_mk]
      have h1 := List.length_take_le 200 (study.briefSummary.getD "").data
      have h3 : ("..." : String).length = 3 := rfl
      omega
  · intro h
    have hnot : ¬ (study.briefSummary.getD "").length > 200 := by omega
    constructor
    · simp [buildRecord, hnot]
    · intro hcase
      rcases hcase with hne | hdet
      · simp [buildRecord, hnot, hne]
      · by_cases hne : study.briefSummary.getD "" = ""
        · simp [buildRecord, hnot, hne, hdet]
        · simp [buildRecord, hnot, hne]

/-- Registry record with a short abstract, as the orchestrator's
context builder receives it. -/
def c7Record : SearchResult := { title := "T", abstract := "short" }

theorem trialLine_summary_segment (r : SearchResult) :
    ("\nSummary: " ++ r.abstract.take 300 ++ "...").data <:+: (trialLine r).data := by
  refine ⟨("\nTitle: " ++ r.title ++ "\nNCT ID: " ++ r.nct_id ++ "\nStatus: " ++ r.status ++
      "\nStudy Type: " ++ r.study_type ++ "\nPhase: " ++ r.phase ++ "\nConditions: " ++
      (if (r.conditions.getD []) ≠ [] then String.intercalate ", " (r.conditions.getD [])
       else "Not specified")).data,
    ("\nURL: " ++ r.link ++ "\n").data, ?_⟩
  simp [trialLine, String.data_append, List.append_assoc]

/-- Claim C7: in the registry context block, the ellipsis marker is
appended when and only when the record's abstract is longer than 300
characters, and an abstract of length at most 300 appears unmodified.
FALSE for the "only when" direction: line 652 writes
`{result.abstract[:300]}...` unconditionally, so `c7Record`'s 5-character
abstract is followed by the ellipsis marker in its summary line. -/
theorem C7_counterexample :
    (("\nSummary: " ++ c7Record.abstract.take 300 ++ "...").data
        <:+: (trialLine c7Record).data) ∧
    c7Record.abstract.take 300 = c7Record.abstract ∧
    ¬ (c7Record.abstract.length > 300) :=
  ⟨trialLine_summary_segment c7Record, by rw [String.take_eq]; decide, by decide⟩

/-- Claim C7 amended: each record's summary line contains the record's
abstract truncated to 300 characters with the ellipsis marker appended
unconditionally — also when the abstract's length is at most 300, in
which case the abstract appears unmodified but still followed by the
marker. -/
theorem C7_amended :
    ∀ (topic : String) (results : List SearchResult) (result : SearchResult),
      result ∈ results →
      ("\nSummary: " ++ result.abstract.take 300 ++ "...").data
        <:+: (clinical_trials_context topic results).data := by
  intro topic results result hmem
  have hne : results ≠ [] := by rintro rfl; cases hmem
  obtain ⟨s, t, rfl⟩ := List.append_of_mem hmem
  refine (trialLine_summary_segment result).trans ?_
  refine ⟨("\nBased on ClinicalTrials.gov search for \x27" ++ topic ++
      "\x27, here are the clinical trials:\n").data ++
      ((s.map trialLine).map String.data).flatten,
    ((t.map trialLine).map String.data).flatten, ?_⟩
  simp [clinical_trials_context, hne, String.data_append, String.data_join,
    List.append_assoc]

/-- Witness for C7's amended theorem at a concrete record list. -/
theorem C7_amended_witness :
    ("\nSummary: " ++ c7Record.abstract.take 300 ++ "...").data
      <:+: (clinical_trials_context "diabetes" [c7Record]).data :=
  C7_amended "diabetes" [c7Record] c7Record (by simp)

/-- Claim C8: when either web-search credential is absent (or empty,
which the source's truthiness test treats the same), `google_search`
returns the empty list immediately and performs no outbound network
call (the call count is zero). -/
theorem C8_missing_credentials :
    ∀ (api_key search_engine_id : Option String) (query : String)
      (num_results max_chars : Nat) (transport : HttpResult GoogleBody)
      (pageContent : String → Nat → String),
      truthy api_key = false ∨ truthy search_engine_id = false →
      google_search api_key search_engine_id query num_results max_chars
        transport pageContent = ([], 0) := by
  intro api_key search_engine_id query num_results max_chars transport pageContent h
  rcases h with h | h <;> simp [google_search, h]

/-- Witness for C8 at a concrete absent credential. -/
theorem C8_missing_credentials_witness :
    google_search none (some "cx") "diabetes" 2 500 HttpResult.failure
      (fun _ _ => "") = ([], 0) :=
  C8_missing_credentials none (some "cx") "diabetes" 2 500 HttpResult.failure
    (fun _ _ => "") (Or.inl rfl)

/-- Claim C9: `Agent.process` always returns a text string and never
propagates an error: when the session is absent (initialization
failed), every call returns the fixed "not initialized" message; when
the underlying service raises, the call returns a diagnostic string
built from the exception's message; when it succeeds, the reply text is
returned.  A setup failure inside the constructor's handler yields an
agent whose session is absent. -/
theorem C9_process_fail_soft :
    ∀ (agent : Agent) (message : String),
      (agent.chat = none →
        agent.process message = "Error: Agent not properly initialized") ∧
      (∀ chat : ChatSession, agent.chat = some chat →
        (∀ e, chat.send_message message = .error e →
          agent.process message = "Error processing message: " ++ e) ∧
        (∀ text, chat.send_message message = .ok text →
          agent.process message = text)) ∧
      (∀ (name : String) (api_key : Option String) (agentI : Agent),
        Agent.init name api_key InitResult.exn = .ok agentI →
        agentI.chat = none) := by
  intro agent message
  refine ⟨?_, ?_, ?_⟩
  · intro h
    simp [Agent.process, h]
  · intro chat hchat
    constructor
    · intro e herr
      simp [Agent.process, hchat, herr]
    · intro text hok
      simp [Agent.process, hchat, hok]
  · intro name api_key agentI hinit
    simp only [Agent.init] at hinit
    split at hinit
    · cases hinit
    · cases hinit
      rfl

theorem googleLoop_fields_none (pageContent : String → Nat → String)
    (max_chars : Nat) (items : List GoogleItem) (r : SearchResult)
    (hmem : r ∈ ((googleLoop pageContent max_chars items).1.getD [])) :
    r.authors = none ∧ r.conditions = none ∧ r.interventions = none ∧
      r.locations = none := by
  induction items with
  | nil => simp [googleLoop] at hmem
  | cons item rest ih =>
    obtain ⟨t?, l?, s?⟩ := item
    cases l? with
    | none => simp [googleLoop] at hmem
    | some link =>
      cases t? with
      | none => simp [googleLoop] at hmem
      | some t =>
        cases s? with
        | none => simp [googleLoop] at hmem
        | some s =>
          simp only [googleLoop] at hmem
          cases h : (googleLoop pageContent max_chars rest).1 with
          | none => rw [h] at hmem; simp at hmem
          | some tail =>
            rw [h] at hmem
            rcases List.mem_cons.mp hmem with rfl | hmem
            · exact ⟨rfl, rfl, rfl, rfl⟩
            · exact ih (by rw [h]; simpa using hmem)

/-- Claim C10 (implicit): the list-valued fields of `SearchResult`
(`authors`, `conditions`, `interventions`, `locations`) default to
`None` rather than an empty list; every record `google_search` returns
has all four unset; a Tier-1 registry record's `interventions` stays
unset unless enrichment ran (it runs only when both summary fields are
empty); and a consumer such as the orchestrator's context builder
null-guards `conditions`, treating `None` exactly like an empty
list. -/
theorem C10_optional_list_fields :
    (∀ title : String,
      ({ title := title } : SearchResult).authors = none ∧
      ({ title := title } : SearchResult).conditions = none ∧
      ({ title := title } : SearchResult).interventions = none ∧
      ({ title := title } : SearchResult).locations = none) ∧
    (∀ (api_key search_engine_id : Option String) (query : String)
       (num_results max_chars : Nat) (transport : HttpResult GoogleBody)
       (pageContent : String → Nat → String) (r : SearchResult),
      r ∈ (google_search api_key search_engine_id query num_results max_chars
             transport pageContent).1 →
      r.authors = none ∧ r.conditions = none ∧ r.interventions = none ∧
        r.locations = none) ∧
    (∀ (study : Study) (nct_id : String),
      (buildRecord study nct_id).interventions = none) ∧
    (∀ (detailTransport : String → HttpResult DetailBody) (study : Study)
       (r : SearchResult),
      processStudy detailTransport study = some r →
      study.briefSummary.getD "" ≠ "" ∨ study.detailedDescription.getD "" ≠ "" →
      r.interventions = none) ∧
    (∀ r : SearchResult, r.conditions = none →
      trialLine r = trialLine { r with conditions := some [] }) := by
  refine ⟨?_, ?_, ?_, ?_, ?_⟩
  · intro title
    exact ⟨rfl, rfl, rfl, rfl⟩
  · intro api_key search_engine_id query num_results max_chars transport
      pageContent r hmem
    rcases transport with _ | ⟨st, body⟩
    · simp only [google_search] at hmem
      split at hmem <;> simp at hmem
    · rcases body with _ | items
      · simp only [google_search] at hmem
        split at hmem
        · simp at hmem
        · split at hmem <;> simp at hmem
      · simp only [google_search] at hmem
        split at hmem
        · simp at hmem
        · split at hmem
          · simp at hmem
          · exact googleLoop_fields_none pageContent max_chars (items.getD []) r
              (by simpa using hmem)
  · intro study nct_id
    rfl
  · intro detailTransport study r hproc hne
    simp only [processStudy] at hproc
    split at hproc
    · cases hproc
    · revert hproc
      split
      · rename_i hboth
        intro hproc
        exact absurd hboth (by tauto)
      · intro hproc
        cases hproc
        rfl
  · intro r h
    simp [trialLine, h]
